import Mathlib

/-
Verification of the onboard control core of the autonomous mining-haulage
vehicle (shallow embedding of the C++ sources).

Machine integers are embedded as unbounded `Int`/`Nat` (no arithmetic in the
modelled code paths approaches the 32/64-bit limits for the inputs of
interest).  C++ `double` comparisons against integer thresholds on values of
the form `sqrt(dx*dx + dy*dy)` are embedded exactly as the equivalent integer
comparisons on `dx*dx + dy*dy` (square root is monotone and IEEE `sqrt` is
correctly rounded, so `sqrt(s) ≤ c ↔ s ≤ c*c` for integer `s`, `c ≥ 0`).
-/

/-! ## Shared data model (common_types.h / circular_buffer.h) -/

/-- Filtered sensor sample stored in the circular buffer
(struct `SensorData`, circular_buffer.h). -/
structure SensorData where
  position_x : Int
  position_y : Int
  angle_x : Int
  temperature : Int
  fault_electrical : Bool
  fault_hydraulic : Bool
  timestamp : Int
deriving DecidableEq, Repr

/-- Zero-initialized sample, the value of C++ `SensorData empty_data = {};`. -/
def zeroSensorData : SensorData :=
  { position_x := 0, position_y := 0, angle_x := 0, temperature := 0
    fault_electrical := false, fault_hydraulic := false, timestamp := 0 }

/-- Truck operating state (struct `TruckState`, common_types.h). -/
structure TruckState where
  fault : Bool
  automatic : Bool
deriving DecidableEq, Repr

/-- Operator command (struct `OperatorCommand`, common_types.h). -/
structure OperatorCommand where
  auto_mode : Bool
  manual_mode : Bool
  rearm : Bool
  accelerate : Int
  steer_left : Int
  steer_right : Int
deriving DecidableEq, Repr

/-- Actuator output of the current sources (struct `ActuatorOutput`).
Modelled from the spec: the revision of common_types.h that declares the
`velocity` and `arrived` fields used by command_logic (part_009) and
navigation_control (part_010) is absent from the sources; the spec's
`ActuatorCommand` row gives the fields velocity, steering and arrived. -/
structure ActuatorOutput where
  velocity : Int
  steering : Int
  arrived : Bool
deriving DecidableEq, Repr

/-- Fault classifications (enum `FaultType`, common_types.h). -/
inductive FaultType where
  | NONE
  | TEMPERATURE_ALERT
  | TEMPERATURE_CRITICAL
  | ELECTRICAL
  | HYDRAULIC
deriving DecidableEq, Repr, Fintype

/-! ## Circular buffer (src/src/circular_buffer.cpp, overwrite-on-full
revision, lines 99-168) -/

/-- Buffer capacity (`CircularBuffer::BUFFER_SIZE`). -/
def BUFFER_SIZE : Nat := 200

/-- State of `CircularBuffer`: the storage array (indices below
`BUFFER_SIZE`), read index, write index and element count.  The mutex and
condition variables serialize the operations; each operation is embedded as
a pure state transformer. -/
structure CircularBuffer where
  buffer : Nat → SensorData
  read_index : Nat
  write_index : Nat
  count : Nat

/-- `CircularBuffer::write` (circular_buffer.cpp lines 106-126): if the
buffer holds `BUFFER_SIZE` elements, advance the read index and drop the
oldest; then store at the write index, advance it, and increment the count.
The writer never waits: the overwrite-on-full revision has no
`not_full_.wait`, so the operation is a total function of the state. -/
def CircularBuffer.write (cb : CircularBuffer) (data : SensorData) : CircularBuffer :=
  let cb :=
    if cb.count = BUFFER_SIZE then
      { cb with read_index := (cb.read_index + 1) % BUFFER_SIZE
                count := cb.count - 1 }
    else cb
  { cb with buffer := Function.update cb.buffer cb.write_index data
            write_index := (cb.write_index + 1) % BUFFER_SIZE
            count := cb.count + 1 }

/-- `CircularBuffer::peek_latest` (circular_buffer.cpp lines 143-153): on an
empty buffer return a zero-initialized sample; otherwise return the element
just before the write index.  The C++ method is `const` under a lock_guard,
so the buffer state is unchanged; the embedding is a pure function of the
state, which renders that exactly. -/
def CircularBuffer.peek_latest (cb : CircularBuffer) : SensorData :=
  if cb.count = 0 then zeroSensorData
  else
    let latest_index := if cb.write_index = 0 then BUFFER_SIZE - 1 else cb.write_index - 1
    cb.buffer latest_index

/-- The freshly constructed buffer (constructor, circular_buffer.cpp lines
99-102): indices and count zero, storage zeroed by `memset`. -/
def initBuffer : CircularBuffer :=
  { buffer := fun _ => zeroSensorData, read_index := 0, write_index := 0, count := 0 }

/-- Concrete sample used by the 201-write boundary scenario. -/
def sampleAt (n : Nat) : SensorData :=
  { zeroSensorData with position_x := (n : Int) }

/-- Write the samples `sampleAt 1, ..., sampleAt n` into a fresh buffer. -/
def writeSeq (n : Nat) : CircularBuffer :=
  (List.range n).foldl (fun b i => b.write (sampleAt (i + 1))) initBuffer

/-! ## Fault monitoring (src/src/fault_monitoring.cpp) -/

/-- `FaultMonitoring::check_for_faults` (fault_monitoring.cpp lines 83-107). -/
def check_for_faults (data : SensorData) : FaultType :=
  if data.temperature > 120 then FaultType.TEMPERATURE_CRITICAL
  else if data.fault_electrical then FaultType.ELECTRICAL
  else if data.fault_hydraulic then FaultType.HYDRAULIC
  else if data.temperature > 95 then FaultType.TEMPERATURE_ALERT
  else FaultType.NONE

/-- One iteration of `FaultMonitoring::task_loop` (fault_monitoring.cpp lines
56-80): classify the latest sample; if the classification differs from the
stored one, store it and, when it is not `NONE`, notify the registered
callbacks.  Returns the new stored classification and the classification
passed to the callbacks, if any (`notify_fault_event` forwards its argument
to every callback unchanged, lines 109-147). -/
def fm_iteration (current : FaultType) (sensor : SensorData) :
    FaultType × Option FaultType :=
  let fault := check_for_faults sensor
  if fault ≠ current then
    (fault, if fault ≠ FaultType.NONE then some fault else none)
  else (current, none)

/-- Trace of fault-monitoring iterations over a list of observed samples,
starting from stored classification `current`.  Returns the final stored
classification and the list of notification events, each paired with the
classification stored just before the iteration that emitted it. -/
def fm_run (current : FaultType) : List SensorData → FaultType × List (FaultType × FaultType)
  | [] => (current, [])
  | s :: rest =>
    let step := fm_iteration current s
    let tail := fm_run step.1 rest
    (tail.1, (match step.2 with
              | some f => [(current, f)]
              | none => []) ++ tail.2)

/-! ## Command logic (src/unnamed/part_009, the revision whose
`calculate_actuator_outputs` drives `velocity`; the older
src/src/command_logic.cpp lines 159-193 is field-for-field identical with
`acceleration` in place of `velocity`) -/

/-- State owned by `CommandLogic` behind its state mutex. -/
structure CommandLogicState where
  current_state : TruckState
  fault_rearmed : Bool
  pending_command : OperatorCommand
  command_pending : Bool
  actuator_output : ActuatorOutput
  navigation_output : ActuatorOutput
  latest_sensor_data : SensorData
deriving Repr

/-- `CommandLogic::check_faults` (part_009 lines 153-162). -/
def CommandLogic.check_faults (data : SensorData) : Bool :=
  if data.temperature > 120 then true
  else if data.fault_electrical || data.fault_hydraulic then true
  else false

/-- `CommandLogic::process_commands` (part_009 lines 133-151). -/
def process_commands (s : CommandLogicState) : CommandLogicState :=
  let s :=
    if s.pending_command.auto_mode && !s.current_state.automatic then
      if !s.current_state.fault then
        { s with current_state := { s.current_state with automatic := true } }
      else s
    else s
  let s :=
    if s.pending_command.manual_mode && s.current_state.automatic then
      { s with current_state := { s.current_state with automatic := false } }
    else s
  if s.pending_command.rearm && s.current_state.fault then
    { s with fault_rearmed := true }
  else s

/-- `CommandLogic::calculate_actuator_outputs` (part_009 lines 164-190).
In fault the velocity and steering are forced to 0 and `arrived` is left as
cached; in automatic the navigation output is adopted verbatim; in manual
the operator command drives the output with clamping. -/
def calculate_actuator_outputs (s : CommandLogicState) : CommandLogicState :=
  if s.current_state.fault then
    { s with actuator_output := { s.actuator_output with velocity := 0, steering := 0 } }
  else if s.current_state.automatic then
    { s with actuator_output := s.navigation_output }
  else
    let out := { s.actuator_output with velocity := s.pending_command.accelerate }
    let out := { out with
      steering := out.steering + (s.pending_command.steer_left - s.pending_command.steer_right) }
    let out :=
      if out.steering > 180 then { out with steering := 180 }
      else if out.steering < -180 then { out with steering := -180 }
      else out
    let out :=
      if out.velocity > 100 then { out with velocity := 100 }
      else if out.velocity < -100 then { out with velocity := -100 }
      else out
    { s with actuator_output := out }

/-- The state-updating prefix of one `CommandLogic::task_loop` iteration
(part_009 lines 94-115): store the latest sample, compute the fault
condition, apply a pending command, then update the fault state. -/
def cl_update_state (s : CommandLogicState) (sensor : SensorData) : CommandLogicState :=
  let s := { s with latest_sensor_data := sensor }
  let fault_detected := CommandLogic.check_faults sensor
  let s :=
    if s.command_pending then { process_commands s with command_pending := false }
    else s
  if fault_detected then
    { s with current_state := { s.current_state with fault := true }, fault_rearmed := false }
  else if s.current_state.fault && s.fault_rearmed then
    { s with current_state := { s.current_state with fault := false }, fault_rearmed := false }
  else s

/-- One full `CommandLogic::task_loop` iteration under the state lock:
update the state, then compute the actuator outputs. -/
def cl_task_iteration (s : CommandLogicState) (sensor : SensorData) : CommandLogicState :=
  calculate_actuator_outputs (cl_update_state s sensor)

/-! ## Navigation control (src/unnamed/part_010, the rotate-then-translate
revision that the spec's Navigation Task section describes) -/

/-- Navigation setpoint (struct `NavigationSetpoint`, common_types.h). -/
structure NavigationSetpoint where
  target_position_x : Int
  target_position_y : Int
  target_speed : Int
  target_angle : Int
deriving DecidableEq, Repr

/-- Navigation sub-state (enum `NavState` of the part_010 revision). -/
inductive NavState where
  | ROTATING
  | MOVING
  | ARRIVED
deriving DecidableEq, Repr

/-- State owned by `NavigationControl` behind its control mutex. -/
structure NavControlState where
  setpoint : NavigationSetpoint
  truck_state : TruckState
  output : ActuatorOutput
  nav_state : NavState
deriving Repr

/-- Modelled from the spec: `ARRIVAL_RADIUS_UNITS` lives in the
navigation_control.h revision that declares `NavState`, which is absent from
the sources; the spec gives "arrival radius 5 units". -/
def ARRIVAL_RADIUS_UNITS : Int := 5

/-- Modelled from the spec: `ALIGNMENT_THRESHOLD_DEG` is declared in the
missing header revision; the spec gives "alignment threshold 5°" (and the
re-alignment threshold is `ALIGNMENT_THRESHOLD_DEG * 2` in part_010 line
189, matching the spec's 10°). -/
def ALIGNMENT_THRESHOLD_DEG : Int := 5

/-- Modelled from the spec: `ROTATION_SPEED` is declared in the missing
header revision; the spec gives "rotation effort 40 (steering units)". -/
def ROTATION_SPEED : Int := 40

/-- Modelled from the spec: `FIXED_SPEED` is declared in the missing header
revision; the spec gives "cruise speed 30%". -/
def FIXED_SPEED : Int := 30

/-- Heading-error normalization of part_010 lines 163-164: the two
sequential while loops `while (e > 180) e -= 360; while (e < -180) e += 360`
never interleave, so they are one recursion. -/
def normalize_error (e : Int) : Int :=
  if 180 < e then normalize_error (e - 360)
  else if e < -180 then normalize_error (e + 360)
  else e
termination_by e.natAbs
decreasing_by
  · omega
  · omega

/-- `NavigationControl::execute_control` (part_010 lines 140-201).  The
target heading comes from `calculate_target_heading` (lines 126-138), whose
`atan2`-based double arithmetic is not exactly representable; it is
abstracted as the parameter `tgt_heading`, so every theorem below holds for
every possible heading computation.  The arrival comparison
`distance <= ARRIVAL_RADIUS_UNITS` on `distance = sqrt(dx*dx + dy*dy)` is
embedded as the equivalent integer comparison on the squares. -/
def execute_control (tgt_heading : Int → Int → Int → Int → Int)
    (st : NavControlState) (sensor : SensorData) : NavControlState :=
  let dx := st.setpoint.target_position_x - sensor.position_x
  let dy := st.setpoint.target_position_y - sensor.position_y
  if dx * dx + dy * dy ≤ ARRIVAL_RADIUS_UNITS * ARRIVAL_RADIUS_UNITS then
    let st :=
      if st.nav_state ≠ NavState.ARRIVED then
        { st with nav_state := NavState.ARRIVED
                  output := { st.output with arrived := true } }
      else st
    { st with output := { st.output with velocity := 0, steering := 0 } }
  else
    let target_heading := tgt_heading sensor.position_x sensor.position_y
        st.setpoint.target_position_x st.setpoint.target_position_y
    let heading_error := normalize_error (target_heading - sensor.angle_x)
    match st.nav_state with
    | NavState.ROTATING =>
      let st := { st with output := { st.output with velocity := 0 } }
      if |heading_error| ≤ ALIGNMENT_THRESHOLD_DEG then
        { st with nav_state := NavState.MOVING }
      else if 0 < heading_error then
        { st with output := { st.output with steering := ROTATION_SPEED } }
      else
        { st with output := { st.output with steering := -ROTATION_SPEED } }
    | NavState.MOVING =>
      let st := { st with output := { st.output with velocity := FIXED_SPEED, steering := 0 } }
      if ALIGNMENT_THRESHOLD_DEG * 2 < |heading_error| then
        { st with nav_state := NavState.ROTATING }
      else st
    | NavState.ARRIVED =>
      { st with output := { st.output with velocity := 0, steering := 0 } }

/-- One iteration of `NavigationControl::task_loop` under the control lock
(part_010 lines 94-111): if automatic and not in fault run the controller,
otherwise take the bumpless-transfer posture. -/
def nav_task_iteration (tgt_heading : Int → Int → Int → Int → Int)
    (st : NavControlState) (sensor : SensorData) : NavControlState :=
  let controllers_enabled := st.truck_state.automatic && !st.truck_state.fault
  if controllers_enabled then execute_control tgt_heading st sensor
  else
    { st with
      setpoint := { st.setpoint with
        target_position_x := sensor.position_x
        target_position_y := sensor.position_y
        target_angle := sensor.angle_x }
      output := { st.output with velocity := 0, steering := 0, arrived := false }
      nav_state := NavState.ROTATING }

/-- `NavigationControl::speed_controller` of src/src/navigation_control.cpp
lines 506-538 (the revision with the deceleration zones).  The comparisons
`distance < c` on the double `distance = sqrt(dx*dx+dy*dy)` are embedded as
the exact integer comparisons `dx*dx+dy*dy < c*c`; the close-zone value
`int(10 * (distance / 12.0))` equals `Nat.sqrt (100 * sq) / 12`.  The
deceleration-zone value `int(MAX_ACCELERATION * pow(distance/80.0, 1.5) * 0.4)`
mixes the constant `MAX_ACCELERATION` (declared in a header revision absent
from the sources) with non-algebraic double arithmetic; that integer and the
constant are abstracted as the parameters `decel` and `maxAccel`.  The final
clamps, which are what the range claim rests on, are embedded exactly. -/
def speed_controller (maxAccel : Int) (decel : Int → Int)
    (current_x current_y target_x target_y : Int) : Int :=
  let dx := target_x - current_x
  let dy := target_y - current_y
  let sq := dx * dx + dy * dy
  let control_output : Int :=
    if sq < 2 * 2 then 0
    else if sq < 12 * 12 then (Nat.sqrt (100 * sq.toNat) : Int) / 12
    else if sq < 80 * 80 then decel sq
    else maxAccel
  let control_output := if control_output > 100 then 100 else control_output
  if control_output < 0 then 0 else control_output

/-! ## Watchdog (src/src/watchdog.cpp) -/

/-- Per-task monitoring record (struct `Watchdog::TaskInfo`, watchdog.h).
Instants of `steady_clock` are embedded as integer milliseconds. -/
structure TaskInfo where
  timeout_ms : Int
  last_heartbeat : Int
  ever_reported : Bool
  consecutive_failures : Int
deriving DecidableEq, Repr

/-- `Watchdog::is_timed_out` (watchdog.cpp lines 122-132): an entry that has
never reported is never timed out; otherwise it is timed out when the
elapsed time since its last heartbeat exceeds its timeout. -/
def is_timed_out (now : Int) (info : TaskInfo) : Bool :=
  if !info.ever_reported then false
  else decide (now - info.last_heartbeat > info.timeout_ms)

/-- The body of the per-entry check in `Watchdog::watchdog_loop` (watchdog.cpp
lines 99-114): on timeout, increment the consecutive-failure count, invoke
the fault handler with the elapsed milliseconds, and reset the last
heartbeat to now.  Returns the updated entry and the handler argument when
the handler was invoked. -/
def entry_check (now : Int) (info : TaskInfo) : TaskInfo × Option Int :=
  if is_timed_out now info then
    ({ info with consecutive_failures := info.consecutive_failures + 1
                 last_heartbeat := now },
     some (now - info.last_heartbeat))
  else (info, none)

/-- One check cycle of `Watchdog::watchdog_loop` over the registered table:
every entry is checked independently under the table lock.  Returns the
updated table and the list of handler invocations `(task name, elapsed)`. -/
def watchdog_check_cycle (now : Int) (entries : List (String × TaskInfo)) :
    List (String × TaskInfo) × List (String × Int) :=
  (entries.map (fun e => (e.1, (entry_check now e.2).1)),
   entries.filterMap (fun e => ((entry_check now e.2).2).map (fun el => (e.1, el))))

/-- `Watchdog::heartbeat` on a registered entry (watchdog.cpp lines 65-81):
update the last heartbeat, mark the entry as having reported, and reset the
consecutive-failure count. -/
def wd_heartbeat (now : Int) (info : TaskInfo) : TaskInfo :=
  { info with last_heartbeat := now, ever_reported := true, consecutive_failures := 0 }

/-! ## Helper lemmas -/

theorem process_commands_keeps_actuator (s : CommandLogicState) :
    (process_commands s).actuator_output = s.actuator_output := by
  simp only [process_commands]
  split_ifs <;> rfl

theorem cl_update_keeps_actuator (s : CommandLogicState) (sensor : SensorData) :
    (cl_update_state s sensor).actuator_output = s.actuator_output := by
  simp only [cl_update_state]
  split_ifs <;> simp [process_commands_keeps_actuator]

theorem calculate_keeps_state (s : CommandLogicState) :
    (calculate_actuator_outputs s).current_state = s.current_state := by
  simp only [calculate_actuator_outputs]
  split_ifs <;> rfl

theorem calculate_fault_branch (s : CommandLogicState)
    (h : s.current_state.fault = true) :
    (calculate_actuator_outputs s).actuator_output =
      { s.actuator_output with velocity := 0, steering := 0 } := by
  simp only [calculate_actuator_outputs]
  rw [if_pos h]

/-! ## Claim theorems -/

/-- C1: in every Command/Mode iteration in which the truck state's fault flag
is true, the actuator command computed in that iteration has velocity 0 and
steering 0, and the arrived flag is left as previously cached. -/
theorem C1_fault_forces_zero_command (s : CommandLogicState) (sensor : SensorData)
    (h : (cl_task_iteration s sensor).current_state.fault = true) :
    (cl_task_iteration s sensor).actuator_output.velocity = 0 ∧
    (cl_task_iteration s sensor).actuator_output.steering = 0 ∧
    (cl_task_iteration s sensor).actuator_output.arrived = s.actuator_output.arrived := by
  have hstate : (cl_task_iteration s sensor).current_state =
      (cl_update_state s sensor).current_state := calculate_keeps_state _
  have hf : (cl_update_state s sensor).current_state.fault = true := by
    rw [hstate] at h
    exact h
  have hout := calculate_fault_branch (cl_update_state s sensor) hf
  have hact := cl_update_keeps_actuator s sensor
  unfold cl_task_iteration
  rw [hout, hact]
  exact ⟨rfl, rfl, rfl⟩

/-- Witness for C1 at a concrete state and a 121 °C sample. -/
theorem C1_fault_forces_zero_command_witness :
    (cl_task_iteration
        ⟨⟨false, true⟩, false, ⟨false, false, false, 0, 0, 0⟩, false,
         ⟨7, 9, true⟩, ⟨11, 13, false⟩, zeroSensorData⟩
        ⟨0, 0, 0, 121, false, false, 0⟩).current_state.fault = true ∧
    ((cl_task_iteration
        ⟨⟨false, true⟩, false, ⟨false, false, false, 0, 0, 0⟩, false,
         ⟨7, 9, true⟩, ⟨11, 13, false⟩, zeroSensorData⟩
        ⟨0, 0, 0, 121, false, false, 0⟩).actuator_output.velocity = 0 ∧
     (cl_task_iteration
        ⟨⟨false, true⟩, false, ⟨false, false, false, 0, 0, 0⟩, false,
         ⟨7, 9, true⟩, ⟨11, 13, false⟩, zeroSensorData⟩
        ⟨0, 0, 0, 121, false, false, 0⟩).actuator_output.steering = 0 ∧
     (cl_task_iteration
        ⟨⟨false, true⟩, false, ⟨false, false, false, 0, 0, 0⟩, false,
         ⟨7, 9, true⟩, ⟨11, 13, false⟩, zeroSensorData⟩
        ⟨0, 0, 0, 121, false, false, 0⟩).actuator_output.arrived =
       (⟨⟨false, true⟩, false, ⟨false, false, false, 0, 0, 0⟩, false,
         ⟨7, 9, true⟩, ⟨11, 13, false⟩, zeroSensorData⟩ :
         CommandLogicState).actuator_output.arrived) :=
  ⟨by decide, C1_fault_forces_zero_command _ _ (by decide)⟩

/-- C4: the fault classification follows the priority order
temperature-critical, electrical, hydraulic, temperature-warning, none, with
boundaries at 95, 96, 120 and 121 °C. -/
theorem C4_classification_priority (d : SensorData) :
    (120 < d.temperature → check_for_faults d = FaultType.TEMPERATURE_CRITICAL) ∧
    (d.temperature ≤ 120 → d.fault_electrical = true →
      check_for_faults d = FaultType.ELECTRICAL) ∧
    (d.temperature ≤ 120 → d.fault_electrical = false → d.fault_hydraulic = true →
      check_for_faults d = FaultType.HYDRAULIC) ∧
    (95 < d.temperature → d.temperature ≤ 120 →
      d.fault_electrical = false → d.fault_hydraulic = false →
      check_for_faults d = FaultType.TEMPERATURE_ALERT) ∧
    (d.temperature ≤ 95 → d.fault_electrical = false → d.fault_hydraulic = false →
      check_for_faults d = FaultType.NONE) ∧
    (d.temperature = 95 → d.fault_electrical = false → d.fault_hydraulic = false →
      check_for_faults d = FaultType.NONE) ∧
    (d.temperature = 96 → d.fault_electrical = false → d.fault_hydraulic = false →
      check_for_faults d = FaultType.TEMPERATURE_ALERT) ∧
    (d.temperature = 120 → d.fault_electrical = false → d.fault_hydraulic = false →
      check_for_faults d = FaultType.TEMPERATURE_ALERT) ∧
    (d.temperature = 121 → check_for_faults d = FaultType.TEMPERATURE_CRITICAL) := by
  unfold check_for_faults
  refine ⟨?_, ?_, ?_, ?_, ?_, ?_, ?_, ?_, ?_⟩
  all_goals intros
  all_goals split_ifs
  all_goals simp_all
  all_goals omega

/-- Witness for C4 at the 121 °C boundary with both discrete flags set. -/
theorem C4_classification_priority_witness :
    check_for_faults ⟨3, 4, 5, 121, true, true, 6⟩ = FaultType.TEMPERATURE_CRITICAL :=
  (C4_classification_priority ⟨3, 4, 5, 121, true, true, 6⟩).1 (by decide)

/-- C7: a fault callback fires exactly in the iterations where the new
classification differs from the stored one and is not `NONE`, and along any
trace every emitted classification differs from the one stored before it and
is never `NONE`. -/
theorem C7_edge_triggered_callbacks :
    (∀ (current : FaultType) (sensor : SensorData) (f : FaultType),
      (fm_iteration current sensor).2 = some f ↔
        (f = check_for_faults sensor ∧ f ≠ current ∧ f ≠ FaultType.NONE)) ∧
    (∀ (c0 : FaultType) (samples : List SensorData) (prior emitted : FaultType),
      (prior, emitted) ∈ (fm_run c0 samples).2 →
        emitted ≠ prior ∧ emitted ≠ FaultType.NONE) := by
  have base : ∀ (current : FaultType) (sensor : SensorData) (f : FaultType),
      (fm_iteration current sensor).2 = some f ↔
        (f = check_for_faults sensor ∧ f ≠ current ∧ f ≠ FaultType.NONE) := by
    intro current sensor f
    simp only [fm_iteration]
    generalize check_for_faults sensor = c
    revert current f c
    decide
  refine ⟨base, ?_⟩
  intro c0 samples
  induction samples generalizing c0 with
  | nil =>
    intro prior emitted h
    simp [fm_run] at h
  | cons s rest ih =>
    intro prior emitted h
    unfold fm_run at h
    simp only [List.mem_append] at h
    rcases h with h | h
    · rcases hstep : (fm_iteration c0 s).2 with _ | f
      · rw [hstep] at h
        simp at h
      · rw [hstep] at h
        simp at h
        obtain ⟨h1, h2⟩ := h
        have := (base c0 s f).mp hstep
        subst h1
        subst h2
        exact ⟨this.2.1, this.2.2⟩
    · exact ih _ _ _ h

/-- Witness for C7: from stored classification `NONE`, a 121 °C sample fires
exactly one temperature-critical callback. -/
theorem C7_edge_triggered_callbacks_witness :
    ((fm_iteration FaultType.NONE ⟨0, 0, 0, 121, false, false, 0⟩).2 =
      some FaultType.TEMPERATURE_CRITICAL) ∧
    (FaultType.TEMPERATURE_CRITICAL ≠ FaultType.NONE ∧
     FaultType.TEMPERATURE_CRITICAL ≠ FaultType.NONE) :=
  ⟨(C7_edge_triggered_callbacks.1 FaultType.NONE ⟨0, 0, 0, 121, false, false, 0⟩
      FaultType.TEMPERATURE_CRITICAL).mpr ⟨by decide, by decide, by decide⟩,
   C7_edge_triggered_callbacks.2 FaultType.NONE [⟨0, 0, 0, 121, false, false, 0⟩]
      FaultType.NONE FaultType.TEMPERATURE_CRITICAL (by decide)⟩

theorem peek_after_write (cb : CircularBuffer) (d : SensorData)
    (hw : cb.write_index < BUFFER_SIZE) :
    (cb.write d).peek_latest = d := by
  have hidx : (if (cb.write_index + 1) % 200 = 0 then 199 else (cb.write_index + 1) % 200 - 1)
      = cb.write_index := by
    simp only [BUFFER_SIZE] at hw
    split_ifs <;> omega
  by_cases hfull : cb.count = 200
  · simp only [CircularBuffer.write, CircularBuffer.peek_latest, BUFFER_SIZE, hfull, reduceIte]
    rw [if_neg (by omega), hidx]
    exact Function.update_same _ _ _
  · simp only [CircularBuffer.write, CircularBuffer.peek_latest, BUFFER_SIZE, hfull, reduceIte]
    rw [if_neg (by omega), hidx]
    exact Function.update_same _ _ _

set_option maxRecDepth 100000 in
/-- C2: a write to the ring buffer never blocks the writer (`write` is a
total function of the buffer state: the overwrite-on-full revision has no
wait on `not_full_`); when the buffer already holds `BUFFER_SIZE = 200`
elements the oldest is dropped (read index advanced) and the count stays at
200, otherwise the count grows by exactly one; in both cases the written
sample becomes the most recent element; and, concretely, the 201st write
into a fresh buffer deletes the 1st (slot 0 holds sample 1 after 200 writes
and sample 201 after the 201st, with the read index moved to 1). -/
theorem C2_write_overwrite_semantics (cb : CircularBuffer) (d : SensorData)
    (hw : cb.write_index < BUFFER_SIZE) :
    ((cb.count = BUFFER_SIZE →
        (cb.write d).count = BUFFER_SIZE ∧
        (cb.write d).read_index = (cb.read_index + 1) % BUFFER_SIZE) ∧
     (cb.count ≠ BUFFER_SIZE →
        (cb.write d).count = cb.count + 1 ∧
        (cb.write d).read_index = cb.read_index) ∧
     (cb.write d).peek_latest = d) ∧
    ((writeSeq 201).count = BUFFER_SIZE ∧
     (writeSeq 201).read_index = 1 ∧
     (writeSeq 200).buffer 0 = sampleAt 1 ∧
     (writeSeq 201).buffer 0 = sampleAt 201) := by
  refine ⟨⟨?_, ?_, peek_after_write cb d hw⟩, by decide⟩
  · intro hfull
    simp only [CircularBuffer.write, BUFFER_SIZE, hfull, reduceIte]
    exact ⟨trivial, trivial⟩
  · intro hfull
    simp only [CircularBuffer.write, BUFFER_SIZE] at *
    simp only [hfull, reduceIte]
    exact ⟨trivial, trivial⟩

/-- Witness for C2 at a fresh (non-full) buffer. -/
theorem C2_write_overwrite_semantics_witness :
    initBuffer.write_index < BUFFER_SIZE ∧
    initBuffer.count ≠ BUFFER_SIZE ∧
    ((initBuffer.write (sampleAt 7)).count = initBuffer.count + 1 ∧
     (initBuffer.write (sampleAt 7)).read_index = initBuffer.read_index) ∧
    (initBuffer.write (sampleAt 7)).peek_latest = sampleAt 7 :=
  ⟨by decide, by decide,
   (C2_write_overwrite_semantics initBuffer (sampleAt 7) (by decide)).1.2.1 (by decide),
   (C2_write_overwrite_semantics initBuffer (sampleAt 7) (by decide)).1.2.2⟩

/-- C3: `peek_latest` returns the argument of the most recent write when the
buffer is non-empty, returns a zero-initialized sample when the buffer is
empty, and leaves the buffer state unchanged (the method is `const` behind a
lock_guard; its embedding is a pure function of the state, so the state is
unchanged by construction). -/
theorem C3_peek_latest_spec (cb : CircularBuffer) (d : SensorData)
    (hw : cb.write_index < BUFFER_SIZE) :
    (cb.write d).peek_latest = d ∧
    (cb.count = 0 → cb.peek_latest = zeroSensorData) := by
  refine ⟨peek_after_write cb d hw, ?_⟩
  intro h
  simp [CircularBuffer.peek_latest, h]

/-- Witness for C3: peek after one write, and peek of the fresh buffer. -/
theorem C3_peek_latest_spec_witness :
    (initBuffer.write (sampleAt 3)).peek_latest = sampleAt 3 ∧
    initBuffer.peek_latest = zeroSensorData :=
  ⟨(C3_peek_latest_spec initBuffer (sampleAt 3) (by decide)).1,
   (C3_peek_latest_spec initBuffer (sampleAt 3) (by decide)).2 (by decide)⟩

/-- C8: in every Navigation iteration in which the truck is not in automatic
mode or is in fault, the setpoint x, y and heading are set to the current
sensor position and heading, the emitted velocity and steering are 0, the
arrived flag is cleared, and the sub-state resets to rotating (bumpless
transfer). -/
theorem C8_bumpless_transfer (tgt : Int → Int → Int → Int → Int)
    (st : NavControlState) (sensor : SensorData)
    (h : st.truck_state.automatic = false ∨ st.truck_state.fault = true) :
    (nav_task_iteration tgt st sensor).setpoint.target_position_x = sensor.position_x ∧
    (nav_task_iteration tgt st sensor).setpoint.target_position_y = sensor.position_y ∧
    (nav_task_iteration tgt st sensor).setpoint.target_angle = sensor.angle_x ∧
    (nav_task_iteration tgt st sensor).output.velocity = 0 ∧
    (nav_task_iteration tgt st sensor).output.steering = 0 ∧
    (nav_task_iteration tgt st sensor).output.arrived = false ∧
    (nav_task_iteration tgt st sensor).nav_state = NavState.ROTATING := by
  have hc : (st.truck_state.automatic && !st.truck_state.fault) = false := by
    rcases h with h | h <;> simp [h]
  simp [nav_task_iteration, hc]

/-- Witness for C8 at a manual-mode state. -/
theorem C8_bumpless_transfer_witness :
    (nav_task_iteration (fun _ _ _ _ => 0)
        ⟨⟨1, 2, 3, 4⟩, ⟨false, false⟩, ⟨5, 6, true⟩, NavState.MOVING⟩
        ⟨15, 16, 17, 20, false, false, 0⟩).setpoint.target_position_x = 15 ∧
    (nav_task_iteration (fun _ _ _ _ => 0)
        ⟨⟨1, 2, 3, 4⟩, ⟨false, false⟩, ⟨5, 6, true⟩, NavState.MOVING⟩
        ⟨15, 16, 17, 20, false, false, 0⟩).output.velocity = 0 ∧
    (nav_task_iteration (fun _ _ _ _ => 0)
        ⟨⟨1, 2, 3, 4⟩, ⟨false, false⟩, ⟨5, 6, true⟩, NavState.MOVING⟩
        ⟨15, 16, 17, 20, false, false, 0⟩).output.arrived = false :=
  have h := C8_bumpless_transfer (fun _ _ _ _ => 0)
      ⟨⟨1, 2, 3, 4⟩, ⟨false, false⟩, ⟨5, 6, true⟩, NavState.MOVING⟩
      ⟨15, 16, 17, 20, false, false, 0⟩ (Or.inl rfl)
  ⟨h.1, h.2.2.2.1, h.2.2.2.2.2.1⟩

/-- C6: in every automatic, non-fault Navigation iteration whose squared
distance to the target is within the arrival radius (`distance ≤ 5`), the
task enters the arrived sub-state, emits velocity 0 and steering 0, and
raises the arrived flag when it was not already arrived (if it was already
arrived, the flag is left as it was); a target equal to the current position
satisfies the distance condition for any heading error. -/
theorem C6_arrival (tgt : Int → Int → Int → Int → Int)
    (st : NavControlState) (sensor : SensorData)
    (ha : st.truck_state.automatic = true) (hf : st.truck_state.fault = false)
    (hd : (st.setpoint.target_position_x - sensor.position_x) *
            (st.setpoint.target_position_x - sensor.position_x) +
          (st.setpoint.target_position_y - sensor.position_y) *
            (st.setpoint.target_position_y - sensor.position_y) ≤
          ARRIVAL_RADIUS_UNITS * ARRIVAL_RADIUS_UNITS) :
    (nav_task_iteration tgt st sensor).nav_state = NavState.ARRIVED ∧
    (nav_task_iteration tgt st sensor).output.velocity = 0 ∧
    (nav_task_iteration tgt st sensor).output.steering = 0 ∧
    (st.nav_state ≠ NavState.ARRIVED →
      (nav_task_iteration tgt st sensor).output.arrived = true) ∧
    (st.nav_state = NavState.ARRIVED →
      (nav_task_iteration tgt st sensor).output.arrived = st.output.arrived) := by
  have hc : (st.truck_state.automatic && !st.truck_state.fault) = true := by
    simp [ha, hf]
  simp only [nav_task_iteration, hc, if_true, execute_control]
  rw [if_pos hd]
  by_cases hn : st.nav_state = NavState.ARRIVED
  · simp [hn]
  · simp [hn]

/-- Witness for C6: the target equals the current position, the heading
computation returns an arbitrary bearing of 77°, and the task still arrives
immediately. -/
theorem C6_arrival_witness :
    (nav_task_iteration (fun _ _ _ _ => 77)
        ⟨⟨9, 9, 0, 0⟩, ⟨false, true⟩, ⟨0, 0, false⟩, NavState.ROTATING⟩
        ⟨9, 9, 123, 20, false, false, 0⟩).nav_state = NavState.ARRIVED ∧
    (nav_task_iteration (fun _ _ _ _ => 77)
        ⟨⟨9, 9, 0, 0⟩, ⟨false, true⟩, ⟨0, 0, false⟩, NavState.ROTATING⟩
        ⟨9, 9, 123, 20, false, false, 0⟩).output.velocity = 0 ∧
    (nav_task_iteration (fun _ _ _ _ => 77)
        ⟨⟨9, 9, 0, 0⟩, ⟨false, true⟩, ⟨0, 0, false⟩, NavState.ROTATING⟩
        ⟨9, 9, 123, 20, false, false, 0⟩).output.steering = 0 ∧
    (nav_task_iteration (fun _ _ _ _ => 77)
        ⟨⟨9, 9, 0, 0⟩, ⟨false, true⟩, ⟨0, 0, false⟩, NavState.ROTATING⟩
        ⟨9, 9, 123, 20, false, false, 0⟩).output.arrived = true :=
  have h := C6_arrival (fun _ _ _ _ => 77)
      ⟨⟨9, 9, 0, 0⟩, ⟨false, true⟩, ⟨0, 0, false⟩, NavState.ROTATING⟩
      ⟨9, 9, 123, 20, false, false, 0⟩ rfl rfl (by decide)
  ⟨h.1, h.2.1, h.2.2.1, h.2.2.2.1 (by decide)⟩

/-- C5: in automatic, non-fault, non-arrived iterations (distance beyond the
arrival radius) the rotate-then-translate discipline holds: in the rotating
sub-state with absolute heading error above the 5° alignment threshold the
emitted velocity is 0 and the steering is plus or minus the rotation
constant 40 according to the sign of the error; once the error is within 5°
the sub-state promotes to moving (velocity still 0 in the promotion
iteration); in the moving sub-state the emitted velocity is the fixed cruise
constant 30 with steering 0, and the sub-state demotes to rotating exactly
when the error again exceeds 10°. -/
theorem C5_rotate_then_translate (tgt : Int → Int → Int → Int → Int)
    (st : NavControlState) (sensor : SensorData) (he : Int)
    (ha : st.truck_state.automatic = true) (hf : st.truck_state.fault = false)
    (hd : ARRIVAL_RADIUS_UNITS * ARRIVAL_RADIUS_UNITS <
          (st.setpoint.target_position_x - sensor.position_x) *
            (st.setpoint.target_position_x - sensor.position_x) +
          (st.setpoint.target_position_y - sensor.position_y) *
            (st.setpoint.target_position_y - sensor.position_y))
    (hhe : he = normalize_error (tgt sensor.position_x sensor.position_y
        st.setpoint.target_position_x st.setpoint.target_position_y - sensor.angle_x)) :
    (st.nav_state = NavState.ROTATING → ALIGNMENT_THRESHOLD_DEG < |he| →
      (nav_task_iteration tgt st sensor).output.velocity = 0 ∧
      (nav_task_iteration tgt st sensor).output.steering =
        (if 0 < he then ROTATION_SPEED else -ROTATION_SPEED) ∧
      (nav_task_iteration tgt st sensor).nav_state = NavState.ROTATING) ∧
    (st.nav_state = NavState.ROTATING → |he| ≤ ALIGNMENT_THRESHOLD_DEG →
      (nav_task_iteration tgt st sensor).nav_state = NavState.MOVING ∧
      (nav_task_iteration tgt st sensor).output.velocity = 0) ∧
    (st.nav_state = NavState.MOVING →
      (nav_task_iteration tgt st sensor).output.velocity = FIXED_SPEED ∧
      (nav_task_iteration tgt st sensor).output.steering = 0 ∧
      (nav_task_iteration tgt st sensor).nav_state =
        (if ALIGNMENT_THRESHOLD_DEG * 2 < |he| then NavState.ROTATING
         else NavState.MOVING)) := by
  have hc : (st.truck_state.automatic && !st.truck_state.fault) = true := by
    simp [ha, hf]
  simp only [nav_task_iteration, hc, if_true, execute_control]
  rw [if_neg (not_le.mpr hd), ← hhe]
  refine ⟨?_, ?_, ?_⟩
  · intro hrot halign
    rw [hrot]
    rw [if_neg (not_le.mpr halign)]
    by_cases hpos : 0 < he
    · simp [hpos]
    · simp [hpos]
  · intro hrot halign
    rw [hrot]
    rw [if_pos halign]
    exact ⟨rfl, rfl⟩
  · intro hmov
    rw [hmov]
    by_cases hbig : ALIGNMENT_THRESHOLD_DEG * 2 < |he|
    · simp [hbig]
    · simp [hbig]

/-- Witness for C5: rotating toward a target 100 units east with a heading
error of 90°, the task emits velocity 0 and steering +40. -/
theorem C5_rotate_then_translate_witness :
    (nav_task_iteration (fun _ _ _ _ => 90)
        ⟨⟨100, 0, 0, 0⟩, ⟨false, true⟩, ⟨0, 0, false⟩, NavState.ROTATING⟩
        ⟨0, 0, 0, 20, false, false, 0⟩).output.velocity = 0 ∧
    (nav_task_iteration (fun _ _ _ _ => 90)
        ⟨⟨100, 0, 0, 0⟩, ⟨false, true⟩, ⟨0, 0, false⟩, NavState.ROTATING⟩
        ⟨0, 0, 0, 20, false, false, 0⟩).output.steering =
      (if (0 : Int) < 90 then ROTATION_SPEED else -ROTATION_SPEED) ∧
    (nav_task_iteration (fun _ _ _ _ => 90)
        ⟨⟨100, 0, 0, 0⟩, ⟨false, true⟩, ⟨0, 0, false⟩, NavState.ROTATING⟩
        ⟨0, 0, 0, 20, false, false, 0⟩).nav_state = NavState.ROTATING :=
  (C5_rotate_then_translate (fun _ _ _ _ => 90)
      ⟨⟨100, 0, 0, 0⟩, ⟨false, true⟩, ⟨0, 0, false⟩, NavState.ROTATING⟩
      ⟨0, 0, 0, 20, false, false, 0⟩ 90 rfl rfl (by decide)
      (by rw [normalize_error]; norm_num)).1 rfl (by decide)

/-- C10: for every pair of current and target positions the speed controller
of src/src/navigation_control.cpp (lines 506-538) returns a value in
[0, 100]; in particular it never commands a negative (reverse) velocity.
The bound holds for every value of the abstracted deceleration-zone cast and
of MAX_ACCELERATION, because the final clamps force the range. -/
theorem C10_speed_controller_range (maxAccel : Int) (decel : Int → Int)
    (current_x current_y target_x target_y : Int) :
    0 ≤ speed_controller maxAccel decel current_x current_y target_x target_y ∧
    speed_controller maxAccel decel current_x current_y target_x target_y ≤ 100 := by
  simp only [speed_controller]
  split_ifs <;> omega

theorem entry_check_fired_timed_out (now : Int) (info : TaskInfo)
    (h : ((entry_check now info).2).isSome) : is_timed_out now info = true := by
  by_cases ht : is_timed_out now info
  · exact ht
  · simp [entry_check, ht] at h

theorem is_timed_out_ever_reported (now : Int) (info : TaskInfo)
    (h : is_timed_out now info = true) : info.ever_reported = true := by
  by_cases he : info.ever_reported
  · exact he
  · simp [is_timed_out, he] at h

/-- C9: the watchdog fault handler is never invoked for a registered entry
whose ever-reported flag is false (bootstrap grace), every handler
invocation resets the entry's last heartbeat to the current check time, and
consequently an entry that stays silent cannot fire again at any later check
within one timeout window of the invocation (at most one invocation per
timeout window, not one per check cycle). -/
theorem C9_watchdog_grace_no_storm :
    (∀ (now : Int) (entries : List (String × TaskInfo)) (name : String) (elapsed : Int),
      (name, elapsed) ∈ (watchdog_check_cycle now entries).2 →
        ∃ info, (name, info) ∈ entries ∧ info.ever_reported = true) ∧
    (∀ (now : Int) (info : TaskInfo),
      ((entry_check now info).2).isSome → (entry_check now info).1.last_heartbeat = now) ∧
    (∀ (t1 t2 : Int) (info : TaskInfo),
      ((entry_check t1 info).2).isSome → t2 - t1 ≤ info.timeout_ms →
        (entry_check t2 (entry_check t1 info).1).2 = none) := by
  refine ⟨?_, ?_, ?_⟩
  · intro now entries name elapsed h
    simp only [watchdog_check_cycle, List.mem_filterMap] at h
    obtain ⟨e, hmem, heq⟩ := h
    rw [Option.map_eq_some'] at heq
    obtain ⟨el, hel, hpair⟩ := heq
    have hsome : ((entry_check now e.2).2).isSome := by rw [hel]; rfl
    have ht := entry_check_fired_timed_out now e.2 hsome
    have hever := is_timed_out_ever_reported now e.2 ht
    refine ⟨e.2, ?_, hever⟩
    have hname : e.1 = name := congrArg Prod.fst hpair
    rw [← hname]
    exact hmem
  · intro now info h
    have ht := entry_check_fired_timed_out now info h
    simp [entry_check, ht]
  · intro t1 t2 info h1 h2
    have ht1 := entry_check_fired_timed_out t1 info h1
    have hever := is_timed_out_ever_reported t1 info ht1
    simp only [entry_check, ht1, if_true]
    have hto : is_timed_out t2 { info with
        consecutive_failures := info.consecutive_failures + 1
        last_heartbeat := t1 } = false := by
      simp [is_timed_out, hever]
      omega
    simp [entry_check, hto]

/-- Witness for C9: a task with a 100 ms timeout that last heartbeated at
time 0; a check at time 500 fires the handler, and a further check at time
550 (within one timeout window of the reset) does not. -/
theorem C9_watchdog_grace_no_storm_witness :
    (∃ info, (("A" : String), info) ∈
        [(("A" : String), (⟨100, 0, true, 0⟩ : TaskInfo))] ∧
      info.ever_reported = true) ∧
    (entry_check 500 ⟨100, 0, true, 0⟩).1.last_heartbeat = 500 ∧
    (entry_check 550 (entry_check 500 ⟨100, 0, true, 0⟩).1).2 = none :=
  ⟨C9_watchdog_grace_no_storm.1 500 [("A", ⟨100, 0, true, 0⟩)] "A" 500 (by decide),
   C9_watchdog_grace_no_storm.2.1 500 ⟨100, 0, true, 0⟩ (by decide),
   C9_watchdog_grace_no_storm.2.2 500 550 ⟨100, 0, true, 0⟩ (by decide) (by decide)⟩
